import Mathlib

/-!
Shallow embedding of the SOLID_Principles repository (TypeScript).

Modelling conventions:
- A method whose only observable effect is a single `console.log(msg)` is
  embedded as a pure function returning `msg : String`.
- A method that may `throw new Error(msg)` is embedded as returning
  `Except String String`: `.ok msg` for a completed `console.log(msg)`,
  `.error msg` for a thrown `Error(msg)`.
- A TypeScript `abstract class` / `interface` whose only content is method
  signatures is embedded as a structure whose fields are those methods;
  a concrete subclass with no constructor fields is a value of that structure.
- Numeric amounts in the discount example are embedded as `ℚ` (the decimal
  literals 0.05, 0.1, 0.15, 0.2 are exact in binary64 only after the final
  rounding of the products at the amounts used here; over `ℚ` the arithmetic
  is exact and agrees with the JavaScript results at the inputs considered).
- Payment amounts are embedded as `ℕ`; `${amount}` interpolation is `toString`.
- For the frame/no-mutation claims, each method on a class with
  constructor-supplied fields also has a state-explicit embedding (suffix `M`)
  returning `output × receiver`; since no method body in the source assigns
  to any field, the returned receiver is the unchanged input.
-/

/-! ### src/4.LiskovSubstituitionPrinciple.ts — payments (LSP) -/

/-- Abstract class `Payment`: contract with one method
`processPayment(amount: number): void` (observable effect: one console line). -/
structure Payment where
  processPayment : Nat → String

/-- Class `CreditCardPayment extends Payment`. -/
def CreditCardPayment : Payment :=
  ⟨fun amount => "Processed credit card payment of $" ++ toString amount⟩

/-- Class `PayPalPayment extends Payment`. -/
def PayPalPayment : Payment :=
  ⟨fun amount => "Processed PayPal payment of $" ++ toString amount⟩

/-- Class `BankTransferPayment extends Payment`. -/
def BankTransferPayment : Payment :=
  ⟨fun amount => "Processed bank transfer payment of $" ++ toString amount⟩

/-- Class `CryptoPayment extends Payment`, added after the call site was written. -/
def CryptoPayment : Payment :=
  ⟨fun amount => "Processed cryptocurrency payment of $" ++ toString amount⟩

/-- Function `processCustomerPayment(paymentMethod: Payment, amount: number)`:
the generic call site; its body is exactly `paymentMethod.processPayment(amount)`. -/
def processCustomerPayment (paymentMethod : Payment) (amount : Nat) : String :=
  paymentMethod.processPayment amount

/-- State-explicit embedding of `Payment.processPayment` (no field assignments
occur in any subclass body, so the receiver is returned unchanged). -/
def Payment.processPaymentM (p : Payment) (amount : Nat) : String × Payment :=
  (p.processPayment amount, p)

/-- The substring relation used to state "the message contains the label":
`needle` occurs contiguously inside `haystack`. -/
def containsSubstring (needle haystack : String) : Prop :=
  ∃ l r, haystack = l ++ needle ++ r

/-! ### src/2.SingleResponsibilityPrinciple.ts (first part) — User (SRP) -/

/-- Class `User` (post-SRP version): constructor fields
`public name`, `public email`, `private password`. -/
structure User where
  name : String
  email : String
  password : String

/-- The object literal `{ name: ..., email: ... }` returned by `User.getUser`. -/
structure UserView where
  name : String
  email : String
deriving DecidableEq

/-- Method `User.getUser()`: returns `{ name: this.name, email: this.email }`. -/
def User.getUser (u : User) : UserView :=
  ⟨u.name, u.email⟩

/-- `JSON.stringify` of the object returned by `getUser`, for field values
that contain no characters JSON needs to escape (true of the example data). -/
def jsonStringifyUser (v : UserView) : String :=
  "\x7b\"name\":\"" ++ v.name ++ "\",\"email\":\"" ++ v.email ++ "\"\x7d"

/-- Method `User.save()`: logs
`User ${JSON.stringify(this.getUser())} saved to database`. -/
def User.save (u : User) : String :=
  "User " ++ jsonStringifyUser u.getUser ++ " saved to database"

/-- State-explicit embedding of `User.getUser` (no field assignment in the body). -/
def User.getUserM (u : User) : UserView × User :=
  (⟨u.name, u.email⟩, u)

/-- State-explicit embedding of `User.save` (no field assignment in the body). -/
def User.saveM (u : User) : String × User :=
  ("User " ++ jsonStringifyUser u.getUser ++ " saved to database", u)

/-- Class `Logger` (post-SRP version): no constructor fields. -/
structure Logger where

/-- Method `Logger.log(message)`: logs
`LOG: ${message} at ${new Date().toISOString()}`. The ambient clock reading
`new Date().toISOString()` is embedded as the explicit extra input `now`. -/
def Logger.log (_self : Logger) (message : String) (now : String) : String :=
  "LOG: " ++ message ++ " at " ++ now

/-- State-explicit embedding of `Logger.log` (no field assignment in the body;
the receiver has no fields at all). -/
def Logger.logM (l : Logger) (message : String) (now : String) : String × Logger :=
  ("LOG: " ++ message ++ " at " ++ now, l)

/-! ### src/2.SingleResponsibilityPrinciple.ts (second part) — discounts (OCP) -/

namespace PreOCP

/-- Class `Discount` of the commented-out pre-OCP version: constructor fields
`public customerType: string`, `public amount: number`. -/
structure Discount where
  customerType : String
  amount : ℚ

/-- Method `Discount.calculateDiscount()` of the pre-OCP version: branches on
the `customerType` tag and throws `Error("Customer type not supported")` in the
final `else`. -/
def Discount.calculateDiscount (d : Discount) : Except String ℚ :=
  if d.customerType = "regular" then .ok (d.amount * 0.05)
  else if d.customerType = "silver" then .ok (d.amount * 0.1)
  else if d.customerType = "gold" then .ok (d.amount * 0.15)
  else .error "Customer type not supported"

end PreOCP

/-- Class `RegularCustomer extends Discount` (post-OCP): field `private amount`. -/
structure RegularCustomer where
  amount : ℚ

/-- Method `RegularCustomer.calculateDiscount()`: `this.amount * 0.05`. -/
def RegularCustomer.calculateDiscount (c : RegularCustomer) : ℚ :=
  c.amount * 0.05

/-- Class `SilverCustomer extends Discount` (post-OCP): field `private amount`. -/
structure SilverCustomer where
  amount : ℚ

/-- Method `SilverCustomer.calculateDiscount()`: `this.amount * 0.1`. -/
def SilverCustomer.calculateDiscount (c : SilverCustomer) : ℚ :=
  c.amount * 0.1

/-- Class `GoldCustomer extends Discount` (post-OCP): field `private amount`. -/
structure GoldCustomer where
  amount : ℚ

/-- Method `GoldCustomer.calculateDiscount()`: `this.amount * 0.15`. -/
def GoldCustomer.calculateDiscount (c : GoldCustomer) : ℚ :=
  c.amount * 0.15

/-- Class `PremiumCustomer extends Discount` (added later, post-OCP):
field `private amount`. -/
structure PremiumCustomer where
  amount : ℚ

/-- Method `PremiumCustomer.calculateDiscount()`: `this.amount * 0.2`. -/
def PremiumCustomer.calculateDiscount (c : PremiumCustomer) : ℚ :=
  c.amount * 0.2

/-- State-explicit embedding of `RegularCustomer.calculateDiscount`. -/
def RegularCustomer.calculateDiscountM (c : RegularCustomer) : ℚ × RegularCustomer :=
  (c.amount * 0.05, c)

/-- State-explicit embedding of `SilverCustomer.calculateDiscount`. -/
def SilverCustomer.calculateDiscountM (c : SilverCustomer) : ℚ × SilverCustomer :=
  (c.amount * 0.1, c)

/-- State-explicit embedding of `GoldCustomer.calculateDiscount`. -/
def GoldCustomer.calculateDiscountM (c : GoldCustomer) : ℚ × GoldCustomer :=
  (c.amount * 0.15, c)

/-- State-explicit embedding of `PremiumCustomer.calculateDiscount`. -/
def PremiumCustomer.calculateDiscountM (c : PremiumCustomer) : ℚ × PremiumCustomer :=
  (c.amount * 0.2, c)

/-! ### src/unnamed/part_002 — printers (ISP) -/

namespace BasicPrinter

/-- Method `BasicPrinter.print()` of the fat-interface (pre-ISP) class:
logs "Printing document...". -/
def print : Except String String := .ok "Printing document..."

/-- Method `BasicPrinter.scan()`: throws
`Error("Scan not supported by BasicPrinter.")`. -/
def scan : Except String String := .error "Scan not supported by BasicPrinter."

/-- Method `BasicPrinter.fax()`: throws
`Error("Fax not supported by BasicPrinter.")`. -/
def fax : Except String String := .error "Fax not supported by BasicPrinter."

end BasicPrinter

namespace BasicPrinterISP

/-- Method `BasicPrinterISP.print()` (post-ISP, implements only `Printable`). -/
def print : Except String String := .ok "Printing document..."

end BasicPrinterISP

namespace AdvancedPrinter

/-- Method `AdvancedPrinter.print()` (implements `Printable`). -/
def print : Except String String := .ok "Printing document..."

/-- Method `AdvancedPrinter.scan()` (implements `Scannable`). -/
def scan : Except String String := .ok "Scanning document..."

/-- Method `AdvancedPrinter.fax()` (implements `Faxable`). -/
def fax : Except String String := .ok "Faxing document..."

end AdvancedPrinter

namespace Photocopier

/-- Method `Photocopier.print()` (implements `Printable`). -/
def print : Except String String := .ok "Printing document..."

/-- Method `Photocopier.photocopy()` (implements `Photocopyable`). -/
def photocopy : Except String String := .ok "Photocopying document..."

end Photocopier

/-! ### src/unnamed/part_000 — databases (DIP) -/

/-- Class `MySqlDatabase` (pre-DIP, no fields). -/
structure MySqlDatabase where

/-- Method `MySqlDatabase.save(data)`: logs `${data} is being saved to MySQL`. -/
def MySqlDatabase.save (_self : MySqlDatabase) (data : String) : String :=
  data ++ " is being saved to MySQL"

/-- Class `MongoDbDatabase` (pre-DIP, no fields). -/
structure MongoDbDatabase where

/-- Method `MongoDbDatabase.save(data)`: logs `${data} is being saved to MongoDB`. -/
def MongoDbDatabase.save (_self : MongoDbDatabase) (data : String) : String :=
  data ++ " is being saved to MongoDB"

/-- Class `HighLevelModule` (pre-DIP): fields `mysqlDatabase`, `mongoDatabase`. -/
structure HighLevelModule where
  mysqlDatabase : MySqlDatabase
  mongoDatabase : MongoDbDatabase

/-- The `HighLevelModule` constructor: instantiates both databases itself. -/
def HighLevelModule.new : HighLevelModule :=
  ⟨⟨⟩, ⟨⟩⟩

/-- Method `HighLevelModule.saveToMySQL(data)`: `this.mysqlDatabase.save(data)`. -/
def HighLevelModule.saveToMySQL (m : HighLevelModule) (data : String) : String :=
  m.mysqlDatabase.save data

/-- Method `HighLevelModule.saveToMongoDB(data)`: `this.mongoDatabase.save(data)`. -/
def HighLevelModule.saveToMongoDB (m : HighLevelModule) (data : String) : String :=
  m.mongoDatabase.save data

/-- Interface `IDatabase` (post-DIP): one method `save(data: string): void`. -/
structure IDatabase where
  save : String → String

/-- Class `MySqlDatabaseDIP implements IDatabase`. -/
def MySqlDatabaseDIP : IDatabase :=
  ⟨fun data => data ++ " is being saved to MySQL"⟩

/-- Class `MongoDbDatabaseDIP implements IDatabase`. -/
def MongoDbDatabaseDIP : IDatabase :=
  ⟨fun data => data ++ " is being saved to MongoDB"⟩

/-- Class `HighLevelModuleDIP` (post-DIP): constructor-injected field
`private database: IDatabase`. -/
structure HighLevelModuleDIP where
  database : IDatabase

/-- Method `HighLevelModuleDIP.saveData(data)`: `this.database.save(data)`. -/
def HighLevelModuleDIP.saveData (m : HighLevelModuleDIP) (data : String) : String :=
  m.database.save data

/-- State-explicit embedding of `HighLevelModuleDIP.saveData`
(no field assignment in the body). -/
def HighLevelModuleDIP.saveDataM (m : HighLevelModuleDIP) (data : String) :
    String × HighLevelModuleDIP :=
  (m.database.save data, m)

/-! ### Theorems -/

/-- C1: for every payment variant implementing the `Payment` contract and every
amount, the generic call site `processCustomerPayment` produces exactly the
console output of calling `processPayment` directly on the variant; its body
never inspects the variant's identity. -/
theorem processCustomerPayment_substitutable (paymentMethod : Payment) (amount : Nat) :
    processCustomerPayment paymentMethod amount = paymentMethod.processPayment amount :=
  rfl

/-- C2: with constructor amount 1000, `calculateDiscount()` returns 50 for
`RegularCustomer`, 100 for `SilverCustomer`, 150 for `GoldCustomer` and
200 for `PremiumCustomer`. -/
theorem calculateDiscount_at_1000 :
    (RegularCustomer.mk 1000).calculateDiscount = 50 ∧
    (SilverCustomer.mk 1000).calculateDiscount = 100 ∧
    (GoldCustomer.mk 1000).calculateDiscount = 150 ∧
    (PremiumCustomer.mk 1000).calculateDiscount = 200 := by
  refine ⟨?_, ?_, ?_, ?_⟩ <;>
    norm_num [RegularCustomer.calculateDiscount, SilverCustomer.calculateDiscount,
      GoldCustomer.calculateDiscount, PremiumCustomer.calculateDiscount]

/-- C3: for each of the four payment variants at amount 100, the shared
dispatch function `processCustomerPayment` emits a message containing the
variant-specific label and the literal "100"; this holds for the later-added
`CryptoPayment` through the same unmodified dispatch function. -/
theorem processCustomerPayment_labels_at_100 :
    (containsSubstring "credit card" (processCustomerPayment CreditCardPayment 100) ∧
      containsSubstring "100" (processCustomerPayment CreditCardPayment 100)) ∧
    (containsSubstring "PayPal" (processCustomerPayment PayPalPayment 100) ∧
      containsSubstring "100" (processCustomerPayment PayPalPayment 100)) ∧
    (containsSubstring "bank transfer" (processCustomerPayment BankTransferPayment 100) ∧
      containsSubstring "100" (processCustomerPayment BankTransferPayment 100)) ∧
    (containsSubstring "cryptocurrency" (processCustomerPayment CryptoPayment 100) ∧
      containsSubstring "100" (processCustomerPayment CryptoPayment 100)) := by
  refine ⟨⟨⟨"Processed ", " payment of $100", ?_⟩, ⟨"Processed credit card payment of $", "", ?_⟩⟩,
    ⟨⟨"Processed ", " payment of $100", ?_⟩, ⟨"Processed PayPal payment of $", "", ?_⟩⟩,
    ⟨⟨"Processed ", " payment of $100", ?_⟩, ⟨"Processed bank transfer payment of $", "", ?_⟩⟩,
    ⟨⟨"Processed ", " payment of $100", ?_⟩, ⟨"Processed cryptocurrency payment of $", "", ?_⟩⟩⟩ <;>
    decide

/-- C4: injecting `MySqlDatabaseDIP` and `MongoDbDatabaseDIP` into the single
`HighLevelModuleDIP.saveData` body and saving "User data" yields two distinct
messages, the first naming MySQL, the second naming MongoDB. -/
theorem saveData_injection_distinct :
    (HighLevelModuleDIP.mk MySqlDatabaseDIP).saveData "User data" =
      "User data is being saved to MySQL" ∧
    (HighLevelModuleDIP.mk MongoDbDatabaseDIP).saveData "User data" =
      "User data is being saved to MongoDB" ∧
    (HighLevelModuleDIP.mk MySqlDatabaseDIP).saveData "User data" ≠
      (HighLevelModuleDIP.mk MongoDbDatabaseDIP).saveData "User data" := by
  refine ⟨rfl, rfl, by decide⟩

/-- C5: in the post-ISP design every operation each class declares through its
narrow interfaces completes by emitting its message; none is an
"not supported" error. -/
theorem postISP_no_unsupported :
    BasicPrinterISP.print = .ok "Printing document..." ∧
    AdvancedPrinter.print = .ok "Printing document..." ∧
    AdvancedPrinter.scan = .ok "Scanning document..." ∧
    AdvancedPrinter.fax = .ok "Faxing document..." ∧
    Photocopier.print = .ok "Printing document..." ∧
    Photocopier.photocopy = .ok "Photocopying document..." :=
  ⟨rfl, rfl, rfl, rfl, rfl, rfl⟩

/-- C6: in the fat-interface (pre-ISP) design, `BasicPrinter.scan` and
`BasicPrinter.fax` throw "not supported" errors that surface to the caller,
while `BasicPrinter.print` succeeds with its message. -/
theorem basicPrinter_unsupported_ops :
    BasicPrinter.scan = .error "Scan not supported by BasicPrinter." ∧
    BasicPrinter.fax = .error "Fax not supported by BasicPrinter." ∧
    BasicPrinter.print = .ok "Printing document..." :=
  ⟨rfl, rfl, rfl⟩

/-- C7: the pre-OCP `Discount.calculateDiscount` throws
"Customer type not supported" exactly when the `customerType` tag is none of
"regular", "silver", "gold"; for those tags it returns the corresponding
percentage of the amount without error. -/
theorem preOCP_discount_error_iff (t : String) (a : ℚ) :
    ((PreOCP.Discount.mk t a).calculateDiscount =
        Except.error "Customer type not supported" ↔
      ¬(t = "regular" ∨ t = "silver" ∨ t = "gold")) ∧
    (PreOCP.Discount.mk "regular" a).calculateDiscount = Except.ok (a * 0.05) ∧
    (PreOCP.Discount.mk "silver" a).calculateDiscount = Except.ok (a * 0.1) ∧
    (PreOCP.Discount.mk "gold" a).calculateDiscount = Except.ok (a * 0.15) := by
  refine ⟨?_, rfl, rfl, rfl⟩
  unfold PreOCP.Discount.calculateDiscount
  split_ifs with h1 h2 h3 <;> simp_all

/-- C8 counterexample: the claim "repeated invocations of the same operation on
the same object produce the same observable output" fails for `Logger`: two
invocations of `log` with the same message on the same (fieldless) receiver
observe different clock readings and emit different console lines. -/
theorem logger_repeated_log_output_differs :
    (Logger.mk).log "User saved" "2024-01-01T00:00:00.000Z" ≠
      (Logger.mk).log "User saved" "2024-01-01T00:00:01.000Z" := by
  decide

/-- C8 (amended): no method mutates its receiver — every state-explicit method
returns its receiver's constructor-supplied fields unchanged and agrees with
the pure embedding — and repeated invocations of the same operation on the
same object produce the same observable output, except that `Logger.log`'s
output also depends on the ambient clock and therefore repeats identically
only at an equal clock reading. -/
theorem no_mutation_frame :
    (∀ u : User, u.getUserM.2 = u ∧ u.saveM.2 = u ∧ u.saveM.1 = u.save ∧
      u.saveM.2.saveM.1 = u.saveM.1 ∧ u.getUserM.2.getUserM.1 = u.getUserM.1) ∧
    (∀ c : RegularCustomer, c.calculateDiscountM.2 = c ∧
      c.calculateDiscountM.1 = c.calculateDiscount ∧
      c.calculateDiscountM.2.calculateDiscountM.1 = c.calculateDiscountM.1) ∧
    (∀ c : SilverCustomer, c.calculateDiscountM.2 = c ∧
      c.calculateDiscountM.1 = c.calculateDiscount ∧
      c.calculateDiscountM.2.calculateDiscountM.1 = c.calculateDiscountM.1) ∧
    (∀ c : GoldCustomer, c.calculateDiscountM.2 = c ∧
      c.calculateDiscountM.1 = c.calculateDiscount ∧
      c.calculateDiscountM.2.calculateDiscountM.1 = c.calculateDiscountM.1) ∧
    (∀ c : PremiumCustomer, c.calculateDiscountM.2 = c ∧
      c.calculateDiscountM.1 = c.calculateDiscount ∧
      c.calculateDiscountM.2.calculateDiscountM.1 = c.calculateDiscountM.1) ∧
    (∀ (p : Payment) (a : Nat), (p.processPaymentM a).2 = p ∧
      (p.processPaymentM a).1 = p.processPayment a ∧
      ((p.processPaymentM a).2.processPaymentM a).1 = (p.processPaymentM a).1) ∧
    (∀ (m : HighLevelModuleDIP) (d : String), (m.saveDataM d).2 = m ∧
      (m.saveDataM d).1 = m.saveData d ∧
      ((m.saveDataM d).2.saveDataM d).1 = (m.saveDataM d).1) ∧
    (∀ (l : Logger) (message now : String), (l.logM message now).2 = l ∧
      (l.logM message now).1 = l.log message now ∧
      ((l.logM message now).2.logM message now).1 = (l.logM message now).1) :=
  ⟨fun _ => ⟨rfl, rfl, rfl, rfl, rfl⟩,
    fun _ => ⟨rfl, rfl, rfl⟩, fun _ => ⟨rfl, rfl, rfl⟩,
    fun _ => ⟨rfl, rfl, rfl⟩, fun _ => ⟨rfl, rfl, rfl⟩,
    fun _ _ => ⟨rfl, rfl, rfl⟩, fun _ _ => ⟨rfl, rfl, rfl⟩,
    fun _ _ _ => ⟨rfl, rfl, rfl⟩⟩

/-- C9: the password never flows to observable output: two `User`s agreeing on
name and email but possibly differing in password have identical `getUser()`
results and identical `save()` console messages. -/
theorem password_noninterference (u1 u2 : User)
    (hn : u1.name = u2.name) (he : u1.email = u2.email) :
    u1.getUser = u2.getUser ∧ u1.save = u2.save := by
  constructor
  · simp [User.getUser, hn, he]
  · simp [User.save, User.getUser, jsonStringifyUser, hn, he]

/-- Witness for C9 at two concrete users differing only in password. -/
theorem password_noninterference_witness :
    (User.mk "Alice" "alice@example.com" "AlicePassword").getUser =
      (User.mk "Alice" "alice@example.com" "OtherPassword").getUser ∧
    (User.mk "Alice" "alice@example.com" "AlicePassword").save =
      (User.mk "Alice" "alice@example.com" "OtherPassword").save :=
  password_noninterference
    (User.mk "Alice" "alice@example.com" "AlicePassword")
    (User.mk "Alice" "alice@example.com" "OtherPassword") rfl rfl

/-- C10: the pre-DIP and post-DIP database designs are observationally
equivalent: for every `data`, `HighLevelModule`'s `saveToMySQL` and
`saveToMongoDB` produce the same output as `HighLevelModuleDIP.saveData` with
the corresponding injected database. -/
theorem preDIP_postDIP_equivalent (data : String) :
    HighLevelModule.new.saveToMySQL data =
      (HighLevelModuleDIP.mk MySqlDatabaseDIP).saveData data ∧
    HighLevelModule.new.saveToMongoDB data =
      (HighLevelModuleDIP.mk MongoDbDatabaseDIP).saveData data :=
  ⟨rfl, rfl⟩
